import Mathlib

/-
  Verification development for the Historical Dialogue Retrieval Engine of
  `auto_script_train.py`.

  Modelling conventions (shallow embedding of the Python source):
  * a Python `str` is a `List Char` (Python indexes code points, as does the
    list representation; Lean `String` indexes bytes, so it is not used);
  * a Python `float` is a `ℚ` (the arithmetic the claims exercise is exact:
    sums, products, divisions and comparisons; `math.sqrt` is the one
    transcendental operation and is passed in as an explicit parameter
    `sqrtQ : ℚ → ℚ` wherever the source calls it);
  * Python `None` is `Option.none`; Python truthiness of a string or of an
    optional string is spelled out at each use site;
  * file reads are `Option` inputs (`none` = the read raised);
  * the embedding HTTP endpoint is a function
    `List (List Char) → List (List ℚ)` modelling one POST whose response is
    already re-ordered by index, as `EmbeddingClient.embed_texts` does;
  * dictionaries with a fixed key set are structures; the JSON pair dicts
    carry an `emb : Option (List ℚ)` field whose `isSome` models the
    membership test `"emb" in p`.

  Bounded recursion: a few loops of the source walk a list consuming at
  least one element per step; they are written with an explicit fuel
  argument that starts at the length of the list (or at an upper bound of
  the number of iterations), so every definition is structural and
  kernel-reducible.  Each such definition notes why the fuel suffices, so
  the zero-fuel branch is never taken on the actual calls.
-/

/-! # Python string primitives -/

/-- Code-point list of a string literal (a Python `str`). -/
def str (s : String) : List Char := s.data

/-- The whitespace set of Python `str.strip` / `str.split()` (ASCII part;
the sources only ever contain ASCII whitespace). -/
def isPySpace (c : Char) : Bool :=
  c = ' ' ∨ c = '\t' ∨ c = '\n' ∨ c = '\r' ∨ c = '\x0b' ∨ c = '\x0c'

/-- Python `str.strip()`. -/
def pyStrip (s : List Char) : List Char :=
  ((s.dropWhile isPySpace).reverse.dropWhile isPySpace).reverse

/-- `startsWithL p s` is Python `s.startswith(p)`. -/
def startsWithL : List Char → List Char → Bool
  | [], _ => true
  | _ :: _, [] => false
  | p :: ps, c :: cs => p = c && startsWithL ps cs

/-- `endsWithL p s` is Python `s.endswith(p)`. -/
def endsWithL (p s : List Char) : Bool :=
  startsWithL p.reverse s.reverse

/-- Index of the first occurrence of `sub` in `s` (Python `find` without the
`-1` encoding). -/
def subFind (sub : List Char) : List Char → Option Nat
  | [] => if startsWithL sub [] then some 0 else none
  | c :: rest =>
    if startsWithL sub (c :: rest) then some 0
    else (subFind sub rest).map (· + 1)

/-- Python `s.find(sub)`: first index, or `-1`. -/
def pyFind (s sub : List Char) : Int :=
  match subFind sub s with
  | none => -1
  | some i => (i : Int)

/-- Python `s.find(sub, start)`. -/
def pyFindFrom (s sub : List Char) (start : Nat) : Int :=
  match subFind sub (s.drop start) with
  | none => -1
  | some i => ((i + start : Nat) : Int)

/-- Python `sub in s`. -/
def containsSub (sub s : List Char) : Bool :=
  (subFind sub s).isSome

/-- Accumulator pass of Python `str.split()` (split on whitespace runs,
dropping empty fields). -/
def pySplitWsAux : List Char → List Char → List (List Char)
  | [], acc => if acc = [] then [] else [acc.reverse]
  | c :: rest, acc =>
    if isPySpace c then
      if acc = [] then pySplitWsAux rest [] else acc.reverse :: pySplitWsAux rest []
    else pySplitWsAux rest (c :: acc)

/-- Python `s.split()` (no separator argument). -/
def pySplitWs (s : List Char) : List (List Char) :=
  pySplitWsAux s []

/-- `' '.join(s.split())`: the whitespace normalization used by
`calculate_similarity`. -/
def normWs (s : List Char) : List Char :=
  List.intercalate [' '] (pySplitWs s)

/-- Python `s.replace(old, new)`, all non-overlapping occurrences left to
right.  Fuel: every step consumes at least one character of `s` (the `old`
patterns at the call sites are non-empty), so `fuel = s.length` suffices. -/
def pyReplaceF (old new : List Char) : Nat → List Char → List Char
  | _, [] => []
  | 0, s => s
  | fuel + 1, c :: rest =>
    if old ≠ [] ∧ startsWithL old (c :: rest) then
      new ++ pyReplaceF old new fuel ((c :: rest).drop old.length)
    else c :: pyReplaceF old new fuel rest

/-- Python `s.replace(old, new)`. -/
def pyReplace (old new s : List Char) : List Char :=
  pyReplaceF old new s.length s

/-- Python `s.split(sep)` for a non-empty separator string.  Fuel as in
`pyReplaceF`. -/
def splitSubF (sep : List Char) : Nat → List Char → List (List Char)
  | _, [] => [[]]
  | 0, s => [s]
  | fuel + 1, c :: rest =>
    if sep ≠ [] ∧ startsWithL sep (c :: rest) then
      [] :: splitSubF sep fuel ((c :: rest).drop sep.length)
    else List.modifyHead (c :: ·) (splitSubF sep fuel rest)

/-- Python `s.split(sep)`. -/
def splitSub (sep s : List Char) : List (List Char) :=
  splitSubF sep s.length s

/-- Digits of a decimal literal to a number. -/
def digitsToNat (ds : List Char) : Nat :=
  ds.foldl (fun n c => n * 10 + (c.toNat - '0'.toNat)) 0

/-- Python `int(s)` on a decimal string: strip whitespace, optional sign,
then digits; anything else raises `ValueError` (`none`).  (Underscore
separators and non-ASCII digits, which Python also accepts, do not occur in
the logs and are not modelled.) -/
def pyInt (s : List Char) : Option Int :=
  match pyStrip s with
  | '-' :: ds => if ds ≠ [] ∧ ds.all (·.isDigit) then some (-(digitsToNat ds : Int)) else none
  | '+' :: ds => if ds ≠ [] ∧ ds.all (·.isDigit) then some ((digitsToNat ds : Int)) else none
  | ds => if ds ≠ [] ∧ ds.all (·.isDigit) then some ((digitsToNat ds : Int)) else none

/-- Concatenation of a list of lists. -/
def concatAll {α : Type} (ls : List (List α)) : List α :=
  ls.foldr (· ++ ·) []

/-! # `difflib.SequenceMatcher(None, a, b).ratio()`

Model of the CPython implementation for a junk function of `None` (the only
way the source calls it).  With `isjunk = None` the junk set `bjunk` is
empty, so the two junk extension loops of `find_longest_match` never
execute and are omitted; the `autojunk` popularity filter on `b2j` is kept.
`get_matching_blocks` maintains a queue and merges adjacent blocks, but
`ratio()` only consumes the *sum* of the block sizes, which equals the sum
computed by the plain divide-and-conquer recursion on
`find_longest_match`; the recursion is modelled directly. -/

namespace SeqMatch

/-- One `(besti, bestj, bestsize)` triple of `find_longest_match`. -/
structure M3 where
  besti : Nat
  bestj : Nat
  bestsize : Nat
deriving DecidableEq

/-- `b2j[c]`: ascending indices of `c` in `b`, with the `autojunk` rule
(`b` of length ≥ 200 drops elements occurring more than `len(b)//100 + 1`
times). -/
def b2jIdx (b : List Char) (c : Char) : List Nat :=
  let idxs := (List.range b.length).filter (fun i => b.getD i ' ' = c)
  if 200 ≤ b.length ∧ b.length / 100 + 1 < idxs.length then [] else idxs

/-- Inner loop of `find_longest_match` over `b2j[a[i]]`:
`if j < blo: continue`, `if j >= bhi: break`,
`k = newj2len[j] = j2len.get(j-1, 0) + 1`, best update.
`j2lenOld` is the previous row (a total function, absent keys read 0;
Python's `j2len.get(j-1, 0)` at `j = 0` reads key `-1`, always absent,
hence the explicit `j = 0` case). -/
def flmInner (i blo bhi : Nat) (j2lenOld : Nat → Nat) :
    List Nat → (Nat → Nat) → M3 → ((Nat → Nat) × M3)
  | [], newj2len, best => (newj2len, best)
  | j :: js, newj2len, best =>
    if j < blo then flmInner i blo bhi j2lenOld js newj2len best
    else if bhi ≤ j then (newj2len, best)
    else
      let k := (if j = 0 then 0 else j2lenOld (j - 1)) + 1
      let newj2len2 := fun x => if x = j then k else newj2len x
      let best2 := if best.bestsize < k then M3.mk (i + 1 - k) (j + 1 - k) k else best
      flmInner i blo bhi j2lenOld js newj2len2 best2

/-- Outer loop of `find_longest_match` over `i in range(alo, ahi)`; each row
starts a fresh `newj2len` and reads the previous row. -/
def flmRows (a b : List Char) (blo bhi : Nat) :
    List Nat → (Nat → Nat) → M3 → M3
  | [], _, best => best
  | i :: is, j2len, best =>
    let r := flmInner i blo bhi j2len (b2jIdx b (a.getD i ' ')) (fun _ => 0) best
    flmRows a b blo bhi is r.1 r.2

/-- First extension loop:
`while besti > alo and bestj > blo and a[besti-1] == b[bestj-1]` (the junk
test is vacuous for `isjunk = None`).  Structural recursion on `besti`. -/
def extendLeft (a b : List Char) (alo blo : Nat) : Nat → Nat → Nat → M3
  | 0, bestj, bestsize => M3.mk 0 bestj bestsize
  | besti + 1, bestj, bestsize =>
    if alo < besti + 1 ∧ blo < bestj ∧ a.getD besti ' ' = b.getD (bestj - 1) ' ' then
      extendLeft a b alo blo besti (bestj - 1) (bestsize + 1)
    else M3.mk (besti + 1) bestj bestsize

/-- Second extension loop:
`while besti+bestsize < ahi and bestj+bestsize < bhi and
a[besti+bestsize] == b[bestj+bestsize]`.  Fuel: each iteration needs
`besti + bestsize < ahi` and strictly increases `bestsize`, so at most
`ahi` iterations run; the call passes `fuel = ahi`. -/
def extendRight (a b : List Char) (ahi bhi besti bestj : Nat) : Nat → Nat → Nat
  | 0, bestsize => bestsize
  | fuel + 1, bestsize =>
    if besti + bestsize < ahi ∧ bestj + bestsize < bhi ∧
        a.getD (besti + bestsize) ' ' = b.getD (bestj + bestsize) ' ' then
      extendRight a b ahi bhi besti bestj fuel (bestsize + 1)
    else bestsize

/-- `find_longest_match(alo, ahi, blo, bhi)` for `SequenceMatcher(None, a, b)`. -/
def findLongestMatch (a b : List Char) (alo ahi blo bhi : Nat) : M3 :=
  let best0 := flmRows a b blo bhi (List.range' alo (ahi - alo)) (fun _ => 0) (M3.mk alo blo 0)
  let bestL := extendLeft a b alo blo best0.besti best0.bestj best0.bestsize
  let size := extendRight a b ahi bhi bestL.besti bestL.bestj ahi bestL.bestsize
  M3.mk bestL.besti bestL.bestj size

/-- Sum of the matching-block sizes over `[alo,ahi) × [blo,bhi)`: the
quantity `sum(triple[-1] for triple in get_matching_blocks())` consumed by
`ratio()`.  Fuel: every recursive call is on an interval pair whose total
length is strictly smaller (the found block has size ≥ 1 and both
sub-intervals exclude it), so the recursion depth is at most
`(ahi-alo)+(bhi-blo)+1` and the call passes `a.length + b.length + 1`. -/
def matchesSum (a b : List Char) : Nat → Nat → Nat → Nat → Nat → Nat
  | 0, _, _, _, _ => 0
  | fuel + 1, alo, ahi, blo, bhi =>
    let m := findLongestMatch a b alo ahi blo bhi
    if m.bestsize = 0 then 0
    else
      matchesSum a b fuel alo m.besti blo m.bestj + m.bestsize +
        matchesSum a b fuel (m.besti + m.bestsize) ahi (m.bestj + m.bestsize) bhi

/-- `SequenceMatcher(None, a, b).ratio()`:
`_calculate_ratio(matches, len(a) + len(b))`, which is
`2.0 * matches / length` when `length` is non-zero and `1.0` otherwise. -/
def ratioVal (a b : List Char) : ℚ :=
  let msum := matchesSum a b (a.length + b.length + 1) 0 a.length 0 b.length
  if a.length + b.length ≠ 0 then
    2 * (msum : ℚ) / ((a.length : ℚ) + (b.length : ℚ))
  else 1

end SeqMatch

/-! # `DialogueEntry` and `DialogueLogParser` -/

/-- `DialogueEntry`: one parsed conversational event of the text log. -/
structure DialogueEntry where
  timestamp : List Char
  step_id : List Char
  source : List Char
  ai_text : Option (List Char)
  user_text : Option (List Char)
  round_num : Option Int
deriving DecidableEq

/-- Python truthiness of an optional string (`None` and `""` are falsy). -/
def truthyS : Option (List Char) → Bool
  | none => false
  | some s => s ≠ []

namespace DialogueLogParser

/-- The 80-dash block separator. -/
def sepLine : List Char := List.replicate 80 '-'

/-- `_parse_header(header)`: `(timestamp, step_id, round_num, source)`.
Defaults `"", "", None, "chat"`; the enclosing `try` of the source cannot
fire (every operation here is total).  New-layout `step_id: ` is tried
first and only at `find(...) > 0`; the old layout `Step ` is the fallback,
again only at a strictly positive position. -/
def parse_header (header : List Char) : List Char × List Char × Option Int × List Char :=
  let timestamp :=
    if startsWithL (str "[") header then
      let end_idx := pyFind header (str "]")
      if 0 < end_idx then pyStrip ((header.take end_idx.toNat).drop 1) else []
    else []
  let step_id :=
    let sidStart := pyFind header (str "step_id: ")
    if 0 < sidStart then
      let vstart := sidStart.toNat + (str "step_id: ").length
      let sidEnd := pyFindFrom header (str " |") vstart
      if 0 < sidEnd then pyStrip ((header.take sidEnd.toNat).drop vstart)
      else pyStrip (header.drop vstart)
    else
      let stStart := pyFind header (str "Step ")
      if 0 < stStart then
        let stEnd := pyFindFrom header (str " |") stStart.toNat
        if 0 < stEnd then pyStrip ((header.take stEnd.toNat).drop (stStart.toNat + 5))
        else []
      else []
  let round_num :=
    let rStart := pyFind header (str "第 ")
    if 0 < rStart then
      let rEnd := pyFindFrom header (str " 轮") rStart.toNat
      if 0 < rEnd then pyInt ((header.take rEnd.toNat).drop (rStart.toNat + 2))
      else none
    else none
  let source :=
    let sStart := pyFind header (str "来源: ")
    if 0 < sStart then pyStrip (header.drop (sStart.toNat + 4))
    else str "chat"
  (timestamp, step_id, round_num, source)

/-- `_parse_block(block)`.  `block.strip().split('\n')` is never the empty
list, so the `if not lines: return None` branch is dead; it is kept to
mirror the source. -/
def parse_block (block : List Char) : Option DialogueEntry :=
  let lines := splitSub (str "\n") (pyStrip block)
  if lines = [] then none
  else
    let header := lines.headD []
    let h := parse_header header
    let texts := lines.tail.foldl
      (fun (acc : Option (List Char) × Option (List Char)) rawLine =>
        let line := pyStrip rawLine
        if startsWithL (str "AI:") line then (some (pyStrip (line.drop 3)), acc.2)
        else if startsWithL (str "用户:") line then (acc.1, some (pyStrip (line.drop 3)))
        else acc)
      (none, none)
    some (DialogueEntry.mk h.1 h.2.1 h.2.2.2 texts.1 texts.2 h.2.2.1)

/-- `parse_log_file`: read (`none` = the read raised, yielding `[]`),
normalize the separator's line endings, split into blocks, and parse each
non-blank block.  A block whose `_parse_block` is `None` would be skipped
(`if entry:`), though that branch is dead. -/
def parse_log_file (content : Option (List Char)) : List DialogueEntry :=
  match content with
  | none => []
  | some content =>
    let n1 := pyReplace (sepLine ++ str "\r\n") (sepLine ++ str "\n") content
    let n2 := pyReplace (sepLine ++ str "\r") (sepLine ++ str "\n") n1
    let blocks := splitSub (sepLine ++ str "\n") n2
    blocks.foldr
      (fun block acc =>
        if pyStrip block = [] then acc
        else match parse_block block with
          | some e => e :: acc
          | none => acc)
      []

/-- The metadata of the most recent AI question (`last_ai_meta`); the
initial value models the empty dict (`.get` reads `None`, and the source
only reads `step_id`, whose `or` fallback treats `""` and `None` alike). -/
structure AiMeta where
  timestamp : List Char
  step_id : List Char
  round_num : Option Int
deriving DecidableEq

/-- One extracted question/answer pair (the dict
`{"ai", "user", "timestamp", "step_id", "round_num"}`). -/
structure TPair where
  ai : List Char
  user : List Char
  timestamp : List Char
  step_id : List Char
  round_num : Option Int
deriving DecidableEq

/-- The loop body of `extract_dialogue_pairs`, written as structural
recursion carrying `last_ai_text` / `last_ai_meta`: an entry with truthy
`user_text` while `last_ai_text` is truthy emits a pair (timestamp and
round from the *current* entry, step preferring the remembered question
meta); then an entry with truthy `ai_text` becomes the new question. -/
def extractLoop : List DialogueEntry → Option (List Char) → AiMeta → List TPair
  | [], _, _ => []
  | e :: es, lastAi, meta =>
    let emitted :=
      if truthyS e.user_text ∧ truthyS lastAi then
        [TPair.mk (lastAi.getD []) (e.user_text.getD []) e.timestamp
          (if meta.step_id ≠ [] then meta.step_id else e.step_id) e.round_num]
      else []
    let nextState :=
      if truthyS e.ai_text then
        (e.ai_text, AiMeta.mk e.timestamp e.step_id e.round_num)
      else (lastAi, meta)
    emitted ++ extractLoop es nextState.1 nextState.2

/-- `extract_dialogue_pairs(entries)`. -/
def extract_dialogue_pairs (entries : List DialogueEntry) : List TPair :=
  extractLoop entries none (AiMeta.mk [] [] none)

end DialogueLogParser

/-! # `DialogueMatcher` -/

namespace DialogueMatcher

open DialogueLogParser

/-- `calculate_similarity(text1, text2)`: the emptiness guard runs *before*
whitespace normalization; then `' '.join(split())` on both sides and the
`difflib` ratio. -/
def calculate_similarity (text1 text2 : List Char) : ℚ :=
  if text1 = [] ∨ text2 = [] then 0
  else SeqMatch.ratioVal (normWs text1) (normWs text2)

/-- Candidate-pool selection shared verbatim by `find_best_match`,
`DialogueReplayEngine.get_match_info`:
`if step_id: sc = [p for p in pairs if p["step_id"] == step_id];
if sc: candidates = sc`. -/
def candidatePool (pairs : List TPair) (step_id : Option (List Char)) : List TPair :=
  match step_id with
  | none => pairs
  | some s =>
    if s = [] then pairs
    else
      let sc := pairs.filter (fun p => p.step_id = s)
      if sc = [] then pairs else sc

/-- Loop body of `find_best_match`: skip pairs with empty question text;
update the running best only when the similarity strictly improves it *and*
meets the threshold. -/
def bestStep (threshold : ℚ) (ai_question : List Char)
    (acc : Option (List Char) × ℚ) (p : TPair) : Option (List Char) × ℚ :=
  if p.ai = [] then acc
  else
    let sim := calculate_similarity ai_question p.ai
    if acc.2 < sim ∧ threshold ≤ sim then (some p.user, sim) else acc

/-- `find_best_match(ai_question, dialogue_pairs, step_id)`. -/
def find_best_match (threshold : ℚ) (ai_question : List Char)
    (dialogue_pairs : List TPair) (step_id : Option (List Char)) : Option (List Char) :=
  if dialogue_pairs = [] then none
  else
    let candidates := candidatePool dialogue_pairs step_id
    (candidates.foldl (bestStep threshold ai_question) (none, 0)).1

end DialogueMatcher

/-! # `DialogueReplayEngine` (text log + difflib matcher) -/

namespace DialogueReplayEngine

open DialogueLogParser DialogueMatcher

/-- The engine's mutable state: `dialogue_pairs` starts as `None`,
`loaded` as `False`. -/
structure Engine where
  threshold : ℚ
  dialogue_pairs : Option (List TPair)
  loaded : Bool
deriving DecidableEq

/-- `DialogueReplayEngine(log_path, similarity_threshold)`. -/
def mkEngine (threshold : ℚ) : Engine :=
  Engine.mk threshold none false

/-- `load_log()`: parse, extract, set `loaded = True`, return `True`.  The
`except` branch is unreachable — `parse_log_file` swallows read errors
itself (returning `[]`) and `extract_dialogue_pairs` is total — so this
load *always* succeeds, whatever the source contains. -/
def load_log (e : Engine) (content : Option (List Char)) : Bool × Engine :=
  let entries := parse_log_file content
  let pairs := extract_dialogue_pairs entries
  (true, Engine.mk e.threshold (some pairs) true)

/-- Python truthiness of the `dialogue_pairs` field (`None` and `[]`
falsy). -/
def pairsTruthy : Option (List TPair) → Bool
  | none => false
  | some l => l ≠ []

/-- `get_answer(ai_question, step_id)`. -/
def get_answer (e : Engine) (ai_question : List Char) (step_id : Option (List Char)) :
    Option (List Char) :=
  if ¬ (e.loaded = true) ∨ ¬ (pairsTruthy e.dialogue_pairs = true) then none
  else find_best_match e.threshold ai_question (e.dialogue_pairs.getD []) step_id

/-- The dict returned by `get_match_info` on the non-error path. -/
structure TMatchInfo where
  matched : Bool
  similarity : ℚ
  answer : Option (List Char)
  threshold : ℚ
  historical_ai : Option (List Char)
  timestamp : Option (List Char)
  step_id : Option (List Char)
  round_num : Option Int
  total_pairs : Nat
deriving DecidableEq

/-- Loop body of `get_match_info`: like `find_best_match` but *without* the
threshold condition — only strict improvement updates the best. -/
def infoStep (ai_question : List Char)
    (acc : Option (List Char) × ℚ × Option TPair) (p : TPair) :
    Option (List Char) × ℚ × Option TPair :=
  if p.ai = [] then acc
  else
    let sim := calculate_similarity ai_question p.ai
    if acc.2.1 < sim then (some p.user, sim, some p) else acc

/-- `get_match_info(ai_question, step_id)`: the unloaded/empty guard
returns the error dict `{"error": "日志未加载或为空"}` (modelled as
`Except.error`); otherwise a fresh scan reporting
`matched = best_similarity >= threshold`. -/
def get_match_info (e : Engine) (ai_question : List Char) (step_id : Option (List Char)) :
    Except (List Char) TMatchInfo :=
  if ¬ (e.loaded = true) ∨ ¬ (pairsTruthy e.dialogue_pairs = true) then
    Except.error (str "日志未加载或为空")
  else
    let pairs := e.dialogue_pairs.getD []
    let candidates := candidatePool pairs step_id
    let r := candidates.foldl (infoStep ai_question) (none, 0, none)
    Except.ok (TMatchInfo.mk (decide (e.threshold ≤ r.2.1)) r.2.1 r.1 e.threshold
      (r.2.2.map (·.ai)) (r.2.2.map (·.timestamp)) (r.2.2.map (·.step_id))
      (r.2.2.bind (·.round_num)) candidates.length)

/-- How the callers of `get_match_info` read the result:
`info.get("matched")` — a missing key (the error dict) is falsy. -/
def matchedGet : Except (List Char) TMatchInfo → Bool
  | Except.error _ => false
  | Except.ok i => i.matched

end DialogueReplayEngine

/-! # `JsonDialogueReplayEngine` (exported dialogue JSON + embeddings) -/

namespace JsonDialogueReplayEngine

/-- Match of the regex `</?think[^>]*>` at the head of `s`: `<`, an
optional `/`, the literal `think`, then everything up to and including the
first `>` (the greedy `[^>]*` backtracks to exactly that).  Returns the
matched length. -/
def matchThink (s : List Char) : Option Nat :=
  match s with
  | '<' :: rest =>
    let sl := match rest with
      | '/' :: r => (1, r)
      | r => (0, r)
    if startsWithL (str "think") sl.2 then
      match (sl.2.drop 5).findIdx? (· = '>') with
      | some i => some (1 + sl.1 + 5 + i + 1)
      | none => none
    else none
  | _ => none

/-- `re.sub(r"</?think[^>]*>", "", text)`: non-overlapping left-to-right
removal.  Fuel: each step consumes at least one character (a match is at
least 7 characters long). -/
def stripThinkF : Nat → List Char → List Char
  | _, [] => []
  | 0, s => s
  | fuel + 1, c :: rest =>
    match matchThink (c :: rest) with
    | some n => stripThinkF fuel ((c :: rest).drop n)
    | none => c :: stripThinkF fuel rest

/-- `re.sub(r"</?think[^>]*>", "", text)`. -/
def stripThink (s : List Char) : List Char :=
  stripThinkF s.length s

/-- Character class `[^。！？\n\r]` of the question regex.  (The ASCII `?`
is *inside* the class; the full-width `？` is excluded.) -/
def qAllowed (c : Char) : Bool :=
  ¬ (c = '。' ∨ c = '！' ∨ c = '？' ∨ c = '\n' ∨ c = '\r')

/-- Index of the last `?` in `run`, if any. -/
def lastQmIdx (run : List Char) : Option Nat :=
  (run.reverse.findIdx? (· = '?')).map (fun r => run.length - 1 - r)

/-- Length of the leftmost match of `[^。！？\n\r]*[？?]` at the head of
`s`: the greedy class run either meets a full-width `？` right after it, or
backtracks to the last ASCII `?` inside the run. -/
def matchQLen (s : List Char) : Option Nat :=
  let run := s.takeWhile qAllowed
  match s.drop run.length with
  | '？' :: _ => some (run.length + 1)
  | _ =>
    match lastQmIdx run with
    | some i => some (i + 1)
    | none => none

/-- `re.findall(r"[^。！？\n\r]*[？\?]", text)`: scan left to right; on a
match, continue after it; otherwise advance one character.  Fuel: each step
consumes at least one character (a match ends with its question mark). -/
def findallQF : Nat → List Char → List (List Char)
  | _, [] => []
  | 0, _ => []
  | fuel + 1, c :: rest =>
    match matchQLen (c :: rest) with
    | some n => (c :: rest).take n :: findallQF fuel ((c :: rest).drop n)
    | none => findallQF fuel rest

/-- `re.findall(r"[^。！？\n\r]*[？\?]", text)`. -/
def findallQ (s : List Char) : List (List Char) :=
  findallQF s.length s

/-- `_normalize_question(text)`: strip think tags, strip whitespace, and
keep only the last `？`/`?`-terminated clause when one exists. -/
def normalize_question (text : List Char) : List Char :=
  let t := pyStrip (stripThink text)
  if t = [] then t
  else
    match (findallQ t).getLast? with
    | some m => pyStrip m
    | none => t

/-- One `{role, content, round?}` message of the exported JSON. -/
structure JMessage where
  role : List Char
  content : List Char
  round : Option Int
deriving DecidableEq

/-- One stage of the exported JSON.  `step_id` is the value of
`stage.get("step_id") or stage.get("stepId")` and `stage_index` that of
`stage.get("stage_index") or stage.get("stageIndex")`. -/
structure JStage where
  step_id : Option (List Char)
  stage_index : Option Int
  messages : List JMessage
deriving DecidableEq

/-- The exported dialogue document: `data.get("stages", [])`. -/
structure JsonData where
  stages : List JStage
deriving DecidableEq

/-- One JSON dialogue pair dict.  `emb` is `none` exactly when the `"emb"`
key is absent. -/
structure JPair where
  ai : List Char
  ai_raw : List Char
  user : List Char
  step_id : Option (List Char)
  round_num : Option Int
  stage_index : Option Int
  emb : Option (List ℚ)
deriving DecidableEq

/-- Scan state of `_parse_json_pairs` (`last_ai_raw`, `last_ai_norm`,
`last_step_id`, `last_stage_index`). -/
structure PState where
  last_ai_raw : Option (List Char)
  last_ai_norm : Option (List Char)
  last_step_id : Option (List Char)
  last_stage_index : Option Int
deriving DecidableEq

/-- Per-message step of `_parse_json_pairs`: skip empty (stripped) content;
an `assistant` message becomes the remembered question; a `user` message
with a truthy remembered normalized question appends a pair. -/
def msgStep (step_id : Option (List Char)) (stage_index : Option Int)
    (acc : PState × List JPair) (m : JMessage) : PState × List JPair :=
  let content := pyStrip m.content
  if content = [] then acc
  else if m.role = str "assistant" then
    (PState.mk (some content) (some (normalize_question content)) step_id stage_index, acc.2)
  else if m.role = str "user" ∧ truthyS acc.1.last_ai_norm then
    (acc.1, acc.2 ++ [JPair.mk (acc.1.last_ai_norm.getD []) (acc.1.last_ai_raw.getD [])
      content acc.1.last_step_id m.round acc.1.last_stage_index none])
  else acc

/-- `_parse_json_pairs(data)`. -/
def parse_json_pairs (data : JsonData) : List JPair :=
  (data.stages.foldl
    (fun acc stage => stage.messages.foldl (msgStep stage.step_id stage.stage_index) acc)
    (PState.mk none none none none, [])).2

/-- The embedding client: `provider` models one POST to the embeddings
endpoint, its response already re-ordered by the provider-supplied `index`
(the `sorted(items, key=...)` step). -/
structure EmbeddingClient where
  api_key : List Char
  max_batch_size : Nat
  provider : List (List Char) → List (List ℚ)

/-- Batching of `embed_texts`: `texts[i : i + max_batch_size]` chunks.
Fuel: each step consumes at least one element (`max_batch_size` is 6 or 25
at the call sites), so `fuel = texts.length` suffices. -/
def chunksF {α : Type} (k : Nat) : Nat → List α → List (List α)
  | _, [] => []
  | 0, l => [l]
  | fuel + 1, l => l.take k :: chunksF k fuel (l.drop k)

/-- `EmbeddingClient.embed_texts(texts)`: early `[]` on no input, then one
POST per batch, concatenating the (index-sorted) embeddings. -/
def embed_texts (c : EmbeddingClient) (texts : List (List Char)) : List (List ℚ) :=
  if texts = [] then []
  else concatAll ((chunksF c.max_batch_size texts.length texts).map c.provider)

/-- `_cosine(a, b)`: `dot / (||a|| * ||b|| + 1e-9)`, with `math.sqrt`
passed in as `sqrtQ`. -/
def cosine (sqrtQ : ℚ → ℚ) (a b : List ℚ) : ℚ :=
  let dot := ((a.zip b).map (fun p => p.1 * p.2)).sum
  let na := sqrtQ ((a.map (fun x => x * x)).sum)
  let nb := sqrtQ ((b.map (fun y => y * y)).sum)
  dot / (na * nb + 1 / 1000000000)

/-- The dict `self._last_match_info` built by `get_answer`. -/
structure JMatchInfo where
  matched : Bool
  similarity : ℚ
  answer : Option (List Char)
  threshold : ℚ
  historical_ai : Option (List Char)
  step_id : Option (List Char)
  round_num : Option Int
  total_pairs : Nat
deriving DecidableEq

/-- The engine's mutable state.  A fresh engine has `dialogue_pairs = []`,
`loaded = False`, `embed_client = None` and empty query cache. -/
structure Engine where
  threshold : ℚ
  embedding_model : List Char
  dialogue_pairs : List JPair
  loaded : Bool
  embed_client : Option EmbeddingClient
  last_query_key : Option (List Char × Option (List Char))
  last_match_info : Option JMatchInfo

/-- `JsonDialogueReplayEngine(json_path, similarity_threshold=0.8, ...)`. -/
def mkEngine (threshold : ℚ) (embedding_model : List Char) : Engine :=
  Engine.mk threshold embedding_model [] false none none none

/-- The external world one `load_log()` call sees: the parsed JSON file
(`none` = read/parse raised), the parsed sidecar cache file (`none` = the
file does not exist, or reading/parsing it raised — both fall through to
recomputation), the environment's API key
(`EMBEDDING_API_KEY or ARK_API_KEY`), and the embedding endpoint. -/
structure LoadWorld where
  jsonData : Option JsonData
  cacheFile : Option (List JPair)
  api_key : Option (List Char)
  provider : List (List Char) → List (List ℚ)

/-- Result of one `load_log()` call: the returned boolean, the engine
state, whether the embedding provider was invoked, and the cache content
written (cache-write failure is swallowed by the source, so the successful
write is modelled). -/
structure LoadResult where
  ok : Bool
  engine : Engine
  providerInvoked : Bool
  cacheWritten : Option (List JPair)

/-- The recompute tail of `load_log` (after the cache check falls
through): require a truthy API key, build the client (batch size 6 for
`embedding-v3`-family models, else 25), embed all question texts, bail out
on a count mismatch, attach embeddings, write the cache, set `loaded`. -/
def loadCompute (e : Engine) (w : LoadWorld) (pairs : List JPair) : LoadResult :=
  match w.api_key with
  | none => LoadResult.mk false e false none
  | some key =>
    if key = [] then LoadResult.mk false e false none
    else
      let mbs := if containsSub (str "embedding-v3") e.embedding_model ∨
          endsWithL (str "v3") e.embedding_model then 6 else 25
      let client := EmbeddingClient.mk key mbs w.provider
      let e := { e with embed_client := some client }
      let texts := pairs.map (·.ai)
      let embs := embed_texts client texts
      if embs.length ≠ pairs.length then LoadResult.mk false e true none
      else
        let pairs2 := List.zipWith (fun p emb => { p with emb := some emb }) pairs embs
        LoadResult.mk true { e with dialogue_pairs := pairs2, loaded := true } true (some pairs2)

/-- `load_log()`: read failure → `False`; zero extracted pairs → `False`
(with `dialogue_pairs` already assigned); a sidecar cache whose entries all
carry `"emb"` is adopted verbatim — `loaded = True`, `True`, *without
touching `embed_client`*; otherwise recompute via `loadCompute`. -/
def load_log (e : Engine) (w : LoadWorld) : LoadResult :=
  match w.jsonData with
  | none => LoadResult.mk false e false none
  | some data =>
    let pairs := parse_json_pairs data
    let e := { e with dialogue_pairs := pairs }
    if pairs = [] then LoadResult.mk false e false none
    else
      match w.cacheFile with
      | some cached =>
        if cached.all (fun p => p.emb.isSome) then
          LoadResult.mk true { e with dialogue_pairs := cached, loaded := true } false none
        else loadCompute e w pairs
      | none => loadCompute e w pairs

/-- Candidate-pool selection of `get_answer` (same shape as the text
engine's, over the JSON pair dicts whose `step_id` may be `None`). -/
def candidatePool (pairs : List JPair) (step_id : Option (List Char)) : List JPair :=
  match step_id with
  | none => pairs
  | some s =>
    if s = [] then pairs
    else
      let sc := pairs.filter (fun p => p.step_id = some s)
      if sc = [] then pairs else sc

/-- Loop body of `get_answer`'s best-candidate scan: skip pairs whose
`emb` is falsy (absent *or* the empty vector); update on strict
improvement only. -/
def bestStep (sqrtQ : ℚ → ℚ) (q_emb : List ℚ)
    (acc : Option JPair × ℚ) (p : JPair) : Option JPair × ℚ :=
  match p.emb with
  | none => acc
  | some emb =>
    if emb = [] then acc
    else
      let sim := cosine sqrtQ q_emb emb
      if acc.2 < sim then (some p, sim) else acc

/-- Result of one `get_answer` call. -/
structure JAnswer where
  answer : Option (List Char)
  engine : Engine
  providerInvoked : Bool

/-- `get_answer(ai_question, step_id)`: the guard
`not loaded or not dialogue_pairs or not embed_client` returns `None`
without touching the cached match info; otherwise normalize and embed the
query (one provider call), scan the step-scoped pool, store
`_last_match_info` with `matched = bool(best_pair and best_sim >=
threshold)`, and return the answer only under that same condition. -/
def get_answer (e : Engine) (sqrtQ : ℚ → ℚ) (ai_question : List Char)
    (step_id : Option (List Char)) : JAnswer :=
  match e.embed_client with
  | none => JAnswer.mk none e false
  | some client =>
    if ¬ (e.loaded = true) ∨ e.dialogue_pairs = [] then JAnswer.mk none e false
    else
      let q_norm := normalize_question ai_question
      let q_emb := (embed_texts client [q_norm]).headD []
      let candidates := candidatePool e.dialogue_pairs step_id
      let r := candidates.foldl (bestStep sqrtQ q_emb) (none, 0)
      let info := JMatchInfo.mk (r.1.isSome && decide (e.threshold ≤ r.2)) r.2
        (r.1.map (·.user)) e.threshold
        (r.1.map (fun p => if p.ai_raw ≠ [] then p.ai_raw else p.ai))
        (r.1.bind (·.step_id)) (r.1.bind (·.round_num)) candidates.length
      let key : Option (List Char × Option (List Char)) := some (ai_question, step_id)
      let e2 := { e with last_query_key := key, last_match_info := some info }
      let ans := if r.1.isSome ∧ e.threshold ≤ r.2 then r.1.map (·.user) else none
      JAnswer.mk ans e2 true

end JsonDialogueReplayEngine

/-! # Concrete scenarios used by the claim theorems -/

section Scenarios

open DialogueLogParser JsonDialogueReplayEngine

/-- C1 scenario: one assistant/user exchange in the exported JSON. -/
def c1Data : JsonData := JsonData.mk
  [JStage.mk (some (str "s1")) none
    [JMessage.mk (str "assistant") (str "ready?") none,
     JMessage.mk (str "user") (str "ok") none]]

/-- C1 scenario: an embedding endpoint answering `[1]` for every text. -/
def c1Prov : List (List Char) → List (List ℚ) := fun _ => [[1]]

/-- C1 first load: no sidecar cache on disk. -/
def c1Run1 : LoadResult :=
  JsonDialogueReplayEngine.load_log (mkEngine (4/5) (str "text-embedding-3-large"))
    (LoadWorld.mk (some c1Data) none (some (str "k")) c1Prov)

/-- C1 second load, by a fresh engine, with the sidecar cache the first
load wrote. -/
def c1Run2 : LoadResult :=
  JsonDialogueReplayEngine.load_log (mkEngine (4/5) (str "text-embedding-3-large"))
    (LoadWorld.mk (some c1Data) c1Run1.cacheWritten (some (str "k")) c1Prov)

/-- C1: the same query against the first-load engine. -/
def c1Ans1 : JAnswer := JsonDialogueReplayEngine.get_answer c1Run1.engine id (str "ready?") none

/-- C1: the same query against the second-load engine. -/
def c1Ans2 : JAnswer := JsonDialogueReplayEngine.get_answer c1Run2.engine id (str "ready?") none

/-- C6 scenario: a JSON engine loaded with threshold `0.0` (the CLI accepts
any threshold in `[0.0, 1.0]`) whose one stored embedding is `[1]`, queried
with a text the endpoint embeds as `[-1]`. -/
def c6Prov : List (List Char) → List (List ℚ) :=
  fun ts => if ts = [str "a"] then [[1]] else [[-1]]

/-- C6: the loaded engine of the scenario. -/
def c6Engine : JsonDialogueReplayEngine.Engine :=
  (JsonDialogueReplayEngine.load_log (mkEngine 0 (str "text-embedding-3-large"))
    (LoadWorld.mk
      (some (JsonData.mk [JStage.mk none none
        [JMessage.mk (str "assistant") (str "a") none,
         JMessage.mk (str "user") (str "b") none]]))
      none (some (str "k")) c6Prov)).engine

/-- C6: the query of the scenario (`math.sqrt` agrees with `id` on the
norms `0` and `1` that occur here). -/
def c6Ans : JAnswer := JsonDialogueReplayEngine.get_answer c6Engine id (str "x") none

/-- C6 witness: a loaded text engine with threshold exactly `1.0` and one
stored pair whose question is the query itself. -/
def c6wEngine : DialogueReplayEngine.Engine :=
  DialogueReplayEngine.Engine.mk 1
    (some [TPair.mk (str "ab") (str "ans") (str "t0") (str "s0") none]) true

/-- C6 witness: the match info `get_match_info` reports for the query
`"ab"` against `c6wEngine` (similarity exactly `1.0 = threshold`). -/
def c6wInfo : DialogueReplayEngine.TMatchInfo :=
  DialogueReplayEngine.TMatchInfo.mk true 1 (some (str "ans")) 1
    (some (str "ab")) (some (str "t0")) (some (str "s0")) none 1

/-- C6 witness: embedding client of the JSON-side witness engine. -/
def c6wjClient : EmbeddingClient := EmbeddingClient.mk (str "k") 25 (fun _ => [[1]])

/-- C6 witness: a loaded JSON engine with threshold `0.5`. -/
def c6wjEngine : JsonDialogueReplayEngine.Engine :=
  JsonDialogueReplayEngine.Engine.mk (1/2) (str "m")
    [JPair.mk (str "a?") (str "a?") (str "ok") none none none (some [1])]
    true (some c6wjClient) none none

/-- C6 witness: the match info stored by `get_answer` on the JSON-side
witness query. -/
def c6wjInfo : JMatchInfo :=
  JMatchInfo.mk true (1000000000 / 1000000001) (some (str "ok")) (1/2)
    (some (str "a?")) none none 1

/-- C4 counterexample: a question record carrying timestamp `t1`, step
`s1` and round `1`. -/
def c4Q : DialogueEntry :=
  DialogueEntry.mk (str "t1") (str "s1") (str "chat") (some (str "q")) none (some 1)

/-- C4 counterexample: the answering record, with its own timestamp `t2`,
empty step and round `2`. -/
def c4A : DialogueEntry :=
  DialogueEntry.mk (str "t2") (str "") (str "chat") none (some (str "a")) (some 2)

/-- C8: a pair attributed to step `A`. -/
def c8pA : TPair := TPair.mk (str "qa") (str "ua") (str "t") (str "A") none

/-- C8: a pair attributed to step `B`. -/
def c8pB : TPair := TPair.mk (str "qb") (str "ub") (str "t") (str "B") none

/-- C9: the text engine after loading an empty (zero-byte, readable) log:
`load_log` succeeds and leaves `loaded = True` with zero pairs. -/
def c9Engine : DialogueReplayEngine.Engine :=
  (DialogueReplayEngine.load_log (DialogueReplayEngine.mkEngine (7/10)) (some [])).2

end Scenarios

/-! # Helper lemmas -/

/-- `str.split(sep)` never returns the empty list. -/
theorem splitSubF_ne_nil (sep : List Char) :
    ∀ (fuel : Nat) (s : List Char), splitSubF sep fuel s ≠ [] := by
  intro fuel
  induction fuel with
  | zero =>
    intro s
    cases s <;> simp [splitSubF]
  | succ n ih =>
    intro s
    cases s with
    | nil => simp [splitSubF]
    | cons c rest =>
      simp only [splitSubF]
      split
      · simp
      · have h := ih rest
        cases hr : splitSubF sep n rest with
        | nil => exact absurd hr h
        | cons x xs => simp [List.modifyHead]

/-- `_parse_block` never returns `None`: `block.strip().split('\n')` is
never empty. -/
theorem parse_block_isSome (block : List Char) :
    (DialogueLogParser.parse_block block).isSome := by
  have h := splitSubF_ne_nil (str "\n") (pyStrip block).length (pyStrip block)
  simp [DialogueLogParser.parse_block, splitSub, h]

/-- The per-block fold of `parse_log_file` emits exactly one record per
non-blank block. -/
theorem parse_fold_length (blocks : List (List Char)) :
    (blocks.foldr
      (fun block acc =>
        if pyStrip block = [] then acc
        else match DialogueLogParser.parse_block block with
          | some e => e :: acc
          | none => acc)
      ([] : List DialogueEntry)).length =
    (blocks.filter (fun b => ¬ (pyStrip b = []))).length := by
  induction blocks with
  | nil => rfl
  | cons b bs ih =>
    simp only [List.foldr, List.filter]
    by_cases hb : pyStrip b = []
    · simp [hb, ih]
    · have hs := parse_block_isSome b
      cases he : DialogueLogParser.parse_block b with
      | none => rw [he] at hs; simp at hs
      | some e => simp [hb, he, ih]

/-- Every pair `extractLoop` emits takes its `timestamp`, `round_num` and
`user` from the entry whose truthy `user_text` triggered the emission. -/
theorem extractLoop_answer_src :
    ∀ (es : List DialogueEntry) (lastAi : Option (List Char))
      (meta : DialogueLogParser.AiMeta) (p : DialogueLogParser.TPair),
      p ∈ DialogueLogParser.extractLoop es lastAi meta →
      ∃ e ∈ es, e.user_text = some p.user ∧ p.timestamp = e.timestamp ∧
        p.round_num = e.round_num := by
  intro es
  induction es with
  | nil => intro lastAi meta p hp; simp [DialogueLogParser.extractLoop] at hp
  | cons e es ih =>
    intro lastAi meta p hp
    simp only [DialogueLogParser.extractLoop, List.mem_append] at hp
    rcases hp with hp | hp
    · by_cases hc : truthyS e.user_text = true ∧ truthyS lastAi = true
      · rw [if_pos hc] at hp
        simp only [List.mem_singleton] at hp
        subst hp
        refine ⟨e, List.mem_cons_self e es, ?_, rfl, rfl⟩
        rcases hu : e.user_text with _ | u
        · rw [hu] at hc; simp [truthyS] at hc
        · simp
      · rw [if_neg hc] at hp
        simp at hp
    · obtain ⟨e2, he2, h⟩ := ih _ _ p hp
      exact ⟨e2, List.mem_cons_of_mem e he2, h⟩

/-- If no entry carries a truthy `ai_text` and no question is pending,
`extractLoop` emits nothing. -/
theorem extractLoop_no_ai :
    ∀ (es : List DialogueEntry) (meta : DialogueLogParser.AiMeta),
      (∀ e ∈ es, truthyS e.ai_text = false) →
      DialogueLogParser.extractLoop es none meta = [] := by
  intro es
  induction es with
  | nil => intro meta _; rfl
  | cons e es ih =>
    intro meta h
    have he := h e (List.mem_cons_self e es)
    have hes : ∀ x ∈ es, truthyS x.ai_text = false :=
      fun x hx => h x (List.mem_cons_of_mem e hx)
    simp only [DialogueLogParser.extractLoop]
    rw [he]
    simp [truthyS, ih _ hes]

/-- `find_longest_match` over an empty `a`-interval finds nothing. -/
theorem findLongestMatch_nil_left (b : List Char) (bhi : Nat) :
    SeqMatch.findLongestMatch [] b 0 0 0 bhi = SeqMatch.M3.mk 0 0 0 := rfl

/-- `b2j` of an empty `b` is empty. -/
theorem b2jIdx_nil (c : Char) : SeqMatch.b2jIdx [] c = [] := rfl

/-- The row loop of `find_longest_match` never updates the best when `b`
is empty. -/
theorem flmRows_nil_right (a : List Char) (blo bhi : Nat) :
    ∀ (is : List Nat) (j2len : Nat → Nat) (best : SeqMatch.M3),
      SeqMatch.flmRows a [] blo bhi is j2len best = best := by
  intro is
  induction is with
  | nil => intro j2len best; rfl
  | cons i is ih => intro j2len best; exact ih (fun _ => 0) best

/-- The right extension loop cannot move when `bhi = 0`. -/
theorem extendRight_bhi_zero (a : List Char) (ahi besti bestj : Nat) :
    ∀ (fuel bs : Nat), SeqMatch.extendRight a [] ahi 0 besti bestj fuel bs = bs := by
  intro fuel
  induction fuel with
  | zero => intro bs; rfl
  | succ n ih =>
    intro bs
    simp only [SeqMatch.extendRight]
    rw [if_neg]
    intro h
    exact absurd h.2.1 (Nat.not_lt_zero _)

/-- `find_longest_match` over an empty `b`-interval finds nothing. -/
theorem findLongestMatch_nil_right (a : List Char) :
    SeqMatch.findLongestMatch a [] 0 a.length 0 0 = SeqMatch.M3.mk 0 0 0 := by
  unfold SeqMatch.findLongestMatch
  rw [flmRows_nil_right]
  exact congrArg _ (extendRight_bhi_zero a a.length 0 0 a.length 0)

/-- `ratio()` against an empty left side is `0` when the right side is
non-empty. -/
theorem ratioVal_nil_left (b : List Char) (hb : b ≠ []) : SeqMatch.ratioVal [] b = 0 := by
  have hm : SeqMatch.matchesSum [] b (0 + b.length + 1) 0 0 0 b.length = 0 := rfl
  simp only [SeqMatch.ratioVal, List.length_nil, hm]
  rw [if_pos]
  · simp
  · simpa using hb

/-- `ratio()` against an empty right side is `0` when the left side is
non-empty. -/
theorem ratioVal_nil_right (a : List Char) (ha : a ≠ []) : SeqMatch.ratioVal a [] = 0 := by
  have hm : SeqMatch.matchesSum a [] (a.length + 0 + 1) 0 a.length 0 0 = 0 := by
    simp only [SeqMatch.matchesSum, findLongestMatch_nil_right a]
    rfl
  simp only [SeqMatch.ratioVal, List.length_nil, hm]
  rw [if_pos]
  · simp
  · simpa using ha

/-- The best-candidate scan of the JSON engine keeps similarity `0.0`
whenever it never selected a pair. -/
theorem jsonBestFold_none (sqrtQ : ℚ → ℚ) (q_emb : List ℚ) :
    ∀ (l : List JsonDialogueReplayEngine.JPair)
      (acc : Option JsonDialogueReplayEngine.JPair × ℚ),
      (acc.1 = none → acc.2 = 0) →
      ((l.foldl (JsonDialogueReplayEngine.bestStep sqrtQ q_emb) acc).1 = none →
        (l.foldl (JsonDialogueReplayEngine.bestStep sqrtQ q_emb) acc).2 = 0) := by
  intro l
  induction l with
  | nil => intro acc h; exact h
  | cons p ps ih =>
    intro acc h
    simp only [List.foldl]
    apply ih
    intro hnone
    simp only [JsonDialogueReplayEngine.bestStep] at hnone ⊢
    cases hpe : p.emb with
    | none => simp only [hpe] at hnone ⊢; exact h hnone
    | some emb =>
      simp only [hpe] at hnone ⊢
      by_cases hemb : emb = []
      · simp only [if_pos hemb] at hnone ⊢; exact h hnone
      · simp only [if_neg hemb] at hnone ⊢
        by_cases hlt : acc.2 < JsonDialogueReplayEngine.cosine sqrtQ q_emb emb
        · simp only [if_pos hlt] at hnone; exact absurd hnone (by simp)
        · simp only [if_neg hlt] at hnone ⊢; exact h hnone

/-! # Claim theorems -/

/-- C1: the cache round-trip scenario, evaluated.  One assistant/user
exchange is loaded twice by fresh engines; the first load computes
embeddings (provider invoked) and writes the sidecar cache; the second
load adopts the valid cache without invoking the provider.  For the very
query the first-load engine answers (`"ok"`, `matched = True`), the
second-load engine returns `None` and records no match info: its
`embed_client` is never initialized on the cache-hit path, so the
`not self.embed_client` guard of `get_answer` fires even though
`loaded = True`.  This contradicts the specified round-trip behaviour
(identical match results) — the missing client initialization is a slip in
the code. -/
theorem c1_cache_roundtrip_code_bug :
    c1Run1.ok = true ∧ c1Run1.providerInvoked = true ∧
    c1Ans1.answer = some (str "ok") ∧
    c1Ans1.engine.last_match_info.map (fun i => i.matched) = some true ∧
    c1Run2.ok = true ∧ c1Run2.providerInvoked = false ∧
    c1Run2.engine.loaded = true ∧
    c1Ans2.answer = none ∧
    c1Ans2.engine.last_match_info = none := by
  refine ⟨by decide, by decide, ?_, ?_, by decide, by decide, by decide, by decide, by decide⟩ <;>
  norm_num +decide [c1Ans1, c1Run1, c1Data, c1Prov, JsonDialogueReplayEngine.get_answer,
    JsonDialogueReplayEngine.load_log, JsonDialogueReplayEngine.loadCompute,
    JsonDialogueReplayEngine.mkEngine, JsonDialogueReplayEngine.parse_json_pairs,
    JsonDialogueReplayEngine.msgStep, JsonDialogueReplayEngine.embed_texts,
    JsonDialogueReplayEngine.chunksF, JsonDialogueReplayEngine.candidatePool,
    JsonDialogueReplayEngine.bestStep, JsonDialogueReplayEngine.cosine,
    JsonDialogueReplayEngine.normalize_question, JsonDialogueReplayEngine.stripThink,
    JsonDialogueReplayEngine.stripThinkF, JsonDialogueReplayEngine.matchThink,
    JsonDialogueReplayEngine.findallQ, JsonDialogueReplayEngine.findallQF,
    JsonDialogueReplayEngine.matchQLen, JsonDialogueReplayEngine.lastQmIdx,
    JsonDialogueReplayEngine.qAllowed, concatAll, truthyS, str, pyStrip, isPySpace,
    startsWithL, endsWithL, containsSub, subFind, List.findIdx?, List.dropWhile,
    List.takeWhile]

/-- C2 counterexample: a readable text-log source (`"hello"`) from which
zero usable pairs are extracted, yet the text engine's `load_log` returns
`True` and sets `loaded = True` — the claim's failure-reporting does not
hold for the text-log engine. -/
theorem c2_text_engine_counterexample :
    (DialogueReplayEngine.load_log (DialogueReplayEngine.mkEngine (7/10))
      (some (str "hello"))).1 = true ∧
    (DialogueReplayEngine.load_log (DialogueReplayEngine.mkEngine (7/10))
      (some (str "hello"))).2.loaded = true ∧
    DialogueLogParser.extract_dialogue_pairs
      (DialogueLogParser.parse_log_file (some (str "hello"))) = [] := by
  decide

/-- C2 (amended): only the JSON replay engine reports failure on a
readable source with no usable question/answer pair — its `load_log`
returns `False`, leaves `loaded` unset and never contacts the embedding
provider; the text-log engine instead reports success (see the
counterexample). -/
theorem c2_json_load_fails_amended :
    ∀ (e : JsonDialogueReplayEngine.Engine) (w : JsonDialogueReplayEngine.LoadWorld)
      (data : JsonDialogueReplayEngine.JsonData),
      w.jsonData = some data →
      JsonDialogueReplayEngine.parse_json_pairs data = [] →
      e.loaded = false →
      (JsonDialogueReplayEngine.load_log e w).ok = false ∧
      (JsonDialogueReplayEngine.load_log e w).engine.loaded = false ∧
      (JsonDialogueReplayEngine.load_log e w).providerInvoked = false := by
  intro e w data hw hp hl
  unfold JsonDialogueReplayEngine.load_log
  rw [hw]
  simp [hp, hl]

/-- C2 witness: the amended theorem applied to a fresh engine and a
readable JSON document with no stages. -/
theorem c2_witness :
    (JsonDialogueReplayEngine.load_log
      (JsonDialogueReplayEngine.mkEngine (4/5) (str "m"))
      (JsonDialogueReplayEngine.LoadWorld.mk
        (some (JsonDialogueReplayEngine.JsonData.mk [])) none none (fun _ => []))).ok = false ∧
    (JsonDialogueReplayEngine.load_log
      (JsonDialogueReplayEngine.mkEngine (4/5) (str "m"))
      (JsonDialogueReplayEngine.LoadWorld.mk
        (some (JsonDialogueReplayEngine.JsonData.mk [])) none none (fun _ => []))).engine.loaded = false := by
  have h := c2_json_load_fails_amended
    (JsonDialogueReplayEngine.mkEngine (4/5) (str "m"))
    (JsonDialogueReplayEngine.LoadWorld.mk
      (some (JsonDialogueReplayEngine.JsonData.mk [])) none none (fun _ => []))
    (JsonDialogueReplayEngine.JsonData.mk []) rfl rfl rfl
  exact ⟨h.1, h.2.1⟩

/-- C3 counterexample: the readable one-block log `"hello"` (a bare header
line, no `AI:`/`用户:` lines) makes the parser emit one Record with
*neither* text populated — such Records are not discarded. -/
theorem c3_neither_text_emitted_counterexample :
    (DialogueLogParser.parse_log_file (some (str "hello"))).map
      (fun e => (e.ai_text, e.user_text)) = [(none, none)] := by
  decide

/-- C3 (amended): for every text-log input the number of emitted Records
equals the number of non-empty blocks (`_parse_block` never discards a
block), but an emitted Record need not have exactly one text populated: a
block with neither marker line yields a Record with neither text (see the
counterexample), and a block carrying both marker lines yields both. -/
theorem c3_record_count_amended :
    ∀ content : List Char,
      (DialogueLogParser.parse_log_file (some content)).length =
        ((splitSub (DialogueLogParser.sepLine ++ str "\n")
          (pyReplace (DialogueLogParser.sepLine ++ str "\r")
            (DialogueLogParser.sepLine ++ str "\n")
            (pyReplace (DialogueLogParser.sepLine ++ str "\r\n")
              (DialogueLogParser.sepLine ++ str "\n") content))).filter
          (fun b => ¬ (pyStrip b = []))).length := by
  intro content
  exact parse_fold_length _

/-- C4 counterexample: a question Record carrying timestamp `"t1"` and
round `1`, answered by a Record with timestamp `"t2"` and round `2`: the
emitted Pair's timestamp and round are `"t2"` and `2` — taken from the
answer side although the question side carries both. -/
theorem c4_metadata_counterexample :
    (DialogueLogParser.extract_dialogue_pairs [c4Q, c4A]).map
      (fun p => (p.timestamp, p.round_num)) = [(str "t2", some 2)] ∧
    c4Q.timestamp = str "t1" ∧ c4Q.round_num = some 1 ∧
    ¬ (str "t2" = str "t1") := by
  decide

/-- C4 (amended): only `step_id` prefers the question-side Record (falling
back to the answer Record's own step when the question's is empty);
`timestamp` and `round_num` are always taken from the answer-side Record,
even when the question Record carries them. -/
theorem c4_metadata_amended :
    (∀ (es : List DialogueEntry) (p : DialogueLogParser.TPair),
      p ∈ DialogueLogParser.extract_dialogue_pairs es →
      ∃ e ∈ es, e.user_text = some p.user ∧ p.timestamp = e.timestamp ∧
        p.round_num = e.round_num) ∧
    (∀ (q a : DialogueEntry) (t u : List Char),
      q.ai_text = some t → t ≠ [] → q.user_text = none →
      a.ai_text = none → a.user_text = some u → u ≠ [] →
      DialogueLogParser.extract_dialogue_pairs [q, a] =
        [DialogueLogParser.TPair.mk t u a.timestamp
          (if q.step_id ≠ [] then q.step_id else a.step_id) a.round_num]) := by
  constructor
  · intro es p hp
    exact extractLoop_answer_src es none _ p hp
  · intro q a t u hqa ht hqu haa hau hu
    simp [DialogueLogParser.extract_dialogue_pairs, DialogueLogParser.extractLoop,
      truthyS, hqa, ht, hqu, haa, hau, hu]

/-- C4 witness: the amended pairwise characterization applied to the
concrete Records of the counterexample. -/
theorem c4_witness :
    DialogueLogParser.extract_dialogue_pairs [c4Q, c4A] =
      [DialogueLogParser.TPair.mk (str "q") (str "a") (str "t2") (str "s1") (some 2)] := by
  have h := c4_metadata_amended.2 c4Q c4A (str "q") (str "a") rfl (by decide) rfl rfl rfl
    (by decide)
  exact h.trans (by decide)

/-- C5 counterexample: two whitespace-only inputs pass the pre-normalization
emptiness guard, both normalize to the empty string, and `difflib`'s
`_calculate_ratio` then returns `1.0`, not `0.0`. -/
theorem c5_whitespace_counterexample :
    DialogueMatcher.calculate_similarity (str " ") (str " ") = 1 ∧
    ¬ (str " " = []) ∧ normWs (str " ") = [] := by
  refine ⟨rfl, by decide, by decide⟩

/-- C5 (amended): the similarity is `0.0` when either input is the empty
string (the guard runs *before* whitespace normalization), and when
exactly one side is empty after normalization; when both sides are
whitespace-only but non-empty, the score is `1.0` instead (see the
counterexample). -/
theorem c5_empty_normalized_amended :
    ∀ s1 s2 : List Char,
      ((s1 = [] ∨ s2 = []) → DialogueMatcher.calculate_similarity s1 s2 = 0) ∧
      (normWs s1 = [] → normWs s2 ≠ [] → DialogueMatcher.calculate_similarity s1 s2 = 0) ∧
      (normWs s1 ≠ [] → normWs s2 = [] → DialogueMatcher.calculate_similarity s1 s2 = 0) := by
  intro s1 s2
  refine ⟨?_, ?_, ?_⟩
  · intro h
    unfold DialogueMatcher.calculate_similarity
    rw [if_pos h]
  · intro h1 h2
    by_cases he1 : s1 = []
    · unfold DialogueMatcher.calculate_similarity
      rw [if_pos (Or.inl he1)]
    · have he2 : s2 ≠ [] := by
        intro h
        rw [h] at h2
        exact h2 rfl
      unfold DialogueMatcher.calculate_similarity
      rw [if_neg (not_or.mpr ⟨he1, he2⟩), h1]
      exact ratioVal_nil_left _ h2
  · intro h1 h2
    by_cases he2 : s2 = []
    · unfold DialogueMatcher.calculate_similarity
      rw [if_pos (Or.inr he2)]
    · have he1 : s1 ≠ [] := by
        intro h
        rw [h] at h1
        exact h1 rfl
      unfold DialogueMatcher.calculate_similarity
      rw [if_neg (not_or.mpr ⟨he1, he2⟩), h2]
      exact ratioVal_nil_right _ h1

/-- C5 witness: the amended theorem applied to a whitespace-only left input
and a non-blank right input. -/
theorem c5_witness :
    DialogueMatcher.calculate_similarity (str " ") (str "a") = 0 := by
  exact (c5_empty_normalized_amended (str " ") (str "a")).2.1 (by decide) (by decide)

/-- The matched flag / returned answer of the JSON engine, characterized in
terms of the best-candidate scan result `r`: when the threshold is
positive, `bool(best_pair and best_sim >= threshold)` coincides with
`best_sim >= threshold`, and the answer is returned exactly when the flag
is set. -/
theorem jsonInfoOfFold (θ : ℚ) (r : Option JsonDialogueReplayEngine.JPair × ℚ)
    (h0 : r.1 = none → r.2 = 0) (hθ : 0 < θ) :
    ((r.1.isSome && decide (θ ≤ r.2)) = true ↔ θ ≤ r.2) ∧
    (if r.1.isSome ∧ θ ≤ r.2 then r.1.map (fun p => p.user) else none).isSome =
      (r.1.isSome && decide (θ ≤ r.2)) := by
  have hsome : θ ≤ r.2 → r.1.isSome = true := by
    intro hle
    cases hr : r.1 with
    | none => rw [h0 hr] at hle; exact absurd (lt_of_lt_of_le hθ hle) (lt_irrefl 0)
    | some p => rfl
  constructor
  · constructor
    · intro h
      exact of_decide_eq_true (Bool.and_elim_right h)
    · intro h
      rw [hsome h, decide_eq_true h]
      rfl
  · by_cases hc : r.1.isSome = true ∧ θ ≤ r.2
    · rw [if_pos hc, hc.1, decide_eq_true hc.2]
      cases hr : r.1 with
      | none => rw [hr] at hc; simp at hc
      | some p => rfl
    · rw [if_neg hc]
      rcases Decidable.not_and_iff_or_not.mp hc with h | h
      · simp [Bool.eq_false_iff.mpr h]
      · simp [decide_eq_false h]

/-- C6 counterexample: a JSON engine loaded with threshold `0.0` whose only
candidate scores a negative cosine: the best similarity stays `0.0`, which
*is* `>=` the threshold, yet `matched` is reported `False` (no best pair
was ever selected) and no answer is returned. -/
theorem c6_threshold_counterexample :
    c6Engine.loaded = true ∧ c6Engine.threshold = 0 ∧
    c6Ans.engine.last_match_info.map (fun i => i.matched) = some false ∧
    c6Ans.engine.last_match_info.map (fun i => decide (c6Engine.threshold ≤ i.similarity)) =
      some true ∧
    c6Ans.answer = none := by
  refine ⟨by decide, by decide, ?_, ?_, ?_⟩ <;>
  norm_num +decide [c6Ans, c6Engine, c6Prov, JsonDialogueReplayEngine.get_answer,
    JsonDialogueReplayEngine.load_log, JsonDialogueReplayEngine.loadCompute,
    JsonDialogueReplayEngine.mkEngine, JsonDialogueReplayEngine.parse_json_pairs,
    JsonDialogueReplayEngine.msgStep, JsonDialogueReplayEngine.embed_texts,
    JsonDialogueReplayEngine.chunksF, JsonDialogueReplayEngine.candidatePool,
    JsonDialogueReplayEngine.bestStep, JsonDialogueReplayEngine.cosine,
    JsonDialogueReplayEngine.normalize_question, JsonDialogueReplayEngine.stripThink,
    JsonDialogueReplayEngine.stripThinkF, JsonDialogueReplayEngine.matchThink,
    JsonDialogueReplayEngine.findallQ, JsonDialogueReplayEngine.findallQF,
    JsonDialogueReplayEngine.matchQLen, JsonDialogueReplayEngine.lastQmIdx,
    JsonDialogueReplayEngine.qAllowed, concatAll, truthyS, str, pyStrip, isPySpace,
    startsWithL, endsWithL, containsSub, subFind, List.findIdx?, List.dropWhile,
    List.takeWhile]

/-- C6 (amended): the text engine's `get_match_info` reports
`matched = (best_similarity >= threshold)` exactly, including the equality
boundary.  The JSON engine's decision is
`bool(best_pair and best_sim >= threshold)`, which agrees with
`best_sim >= threshold` (again including the boundary) whenever the
configured threshold is positive; with threshold `<= 0.0` and no selected
pair the two differ (see the counterexample).  In the JSON engine the
answer is returned iff the flag is set; the text engine's `get_answer`
runs a separate scan (strict improvement *and* threshold) and is not
characterized by this claim. -/
theorem c6_matched_iff_amended :
    (∀ (e : DialogueReplayEngine.Engine) (q : List Char) (sid : Option (List Char))
       (info : DialogueReplayEngine.TMatchInfo),
      DialogueReplayEngine.get_match_info e q sid = Except.ok info →
      (info.matched = true ↔ info.threshold ≤ info.similarity)) ∧
    (∀ (e : JsonDialogueReplayEngine.Engine) (sqrtQ : ℚ → ℚ) (q : List Char)
       (sid : Option (List Char)) (client : JsonDialogueReplayEngine.EmbeddingClient),
      e.embed_client = some client → e.loaded = true → e.dialogue_pairs ≠ [] →
      0 < e.threshold →
      ∀ info : JsonDialogueReplayEngine.JMatchInfo,
        (JsonDialogueReplayEngine.get_answer e sqrtQ q sid).engine.last_match_info =
          some info →
        ((info.matched = true ↔ info.threshold ≤ info.similarity) ∧
         (JsonDialogueReplayEngine.get_answer e sqrtQ q sid).answer.isSome = info.matched)) := by
  constructor
  · intro e q sid info h
    unfold DialogueReplayEngine.get_match_info at h
    split at h
    · exact absurd h (by simp)
    · simp only [Except.ok.injEq] at h
      subst h
      simp [decide_eq_true_eq]
  · intro e sqrtQ q sid client hcl hld hne hθ info hinfo
    have hguard : ¬ (¬ (e.loaded = true) ∨ e.dialogue_pairs = []) := by
      simp [hld, hne]
    unfold JsonDialogueReplayEngine.get_answer at hinfo ⊢
    rw [hcl] at hinfo ⊢
    simp only [if_neg hguard] at hinfo ⊢
    simp only [Option.some.injEq] at hinfo
    subst hinfo
    have h0 := jsonBestFold_none sqrtQ
      ((JsonDialogueReplayEngine.embed_texts client
        [JsonDialogueReplayEngine.normalize_question q]).headD [])
      (JsonDialogueReplayEngine.candidatePool e.dialogue_pairs sid)
      (none, 0) (fun _ => rfl)
    exact jsonInfoOfFold e.threshold _ h0 hθ

/-- C6 witness: the amended theorem applied, text side, to a loaded engine
whose best candidate scores exactly the threshold (`1.0 = 1.0`, reported
matched), and, JSON side, to a loaded engine with positive threshold whose
query returns an answer. -/
theorem c6_witness :
    c6wInfo.matched = true ∧
    (JsonDialogueReplayEngine.get_answer c6wjEngine id (str "a?") none).answer.isSome = true := by
  constructor
  · refine (c6_matched_iff_amended.1 c6wEngine (str "ab") none c6wInfo ?_).mpr ?_
    · norm_num +decide [c6wEngine, c6wInfo, DialogueReplayEngine.get_match_info,
        DialogueReplayEngine.pairsTruthy, DialogueMatcher.candidatePool,
        DialogueReplayEngine.infoStep, DialogueMatcher.calculate_similarity,
        normWs, pySplitWs, pySplitWsAux, isPySpace, str, SeqMatch.ratioVal,
        SeqMatch.matchesSum, SeqMatch.findLongestMatch, SeqMatch.flmRows,
        SeqMatch.flmInner, SeqMatch.b2jIdx, SeqMatch.extendLeft, SeqMatch.extendRight,
        List.range', List.intercalate]
    · norm_num [c6wInfo]
  · have h := c6_matched_iff_amended.2 c6wjEngine id (str "a?") none c6wjClient rfl rfl
      (by decide) (by norm_num [c6wjEngine]) c6wjInfo ?_
    · rw [h.2]
      exact h.1.mpr (by norm_num [c6wjInfo])
    · norm_num +decide [c6wjEngine, c6wjClient, c6wjInfo,
        JsonDialogueReplayEngine.get_answer, JsonDialogueReplayEngine.embed_texts,
        JsonDialogueReplayEngine.chunksF, JsonDialogueReplayEngine.candidatePool,
        JsonDialogueReplayEngine.bestStep, JsonDialogueReplayEngine.cosine,
        JsonDialogueReplayEngine.normalize_question, JsonDialogueReplayEngine.stripThink,
        JsonDialogueReplayEngine.stripThinkF, JsonDialogueReplayEngine.matchThink,
        JsonDialogueReplayEngine.findallQ, JsonDialogueReplayEngine.findallQF,
        JsonDialogueReplayEngine.matchQLen, JsonDialogueReplayEngine.lastQmIdx,
        JsonDialogueReplayEngine.qAllowed, concatAll, truthyS, str, pyStrip, isPySpace,
        startsWithL, subFind, List.findIdx?, List.dropWhile, List.takeWhile]

/-- C7: pair extraction is the recency fold over the Record sequence: on
`[Q1, A1, Q2, A2]` it yields exactly `(Q1,A1)` and `(Q2,A2)`; on
`[A1, Q1, A2]` (leading orphan answer) exactly `(Q1,A2)`; and with no
question Record ever seen, nothing is emitted. -/
theorem c7_pair_extraction_fold :
    (∀ (q1 a1 q2 a2 : DialogueEntry) (t1 u1 t2 u2 : List Char),
      q1.ai_text = some t1 → t1 ≠ [] → q1.user_text = none →
      a1.ai_text = none → a1.user_text = some u1 → u1 ≠ [] →
      q2.ai_text = some t2 → t2 ≠ [] → q2.user_text = none →
      a2.ai_text = none → a2.user_text = some u2 → u2 ≠ [] →
      DialogueLogParser.extract_dialogue_pairs [q1, a1, q2, a2] =
        [DialogueLogParser.TPair.mk t1 u1 a1.timestamp
          (if q1.step_id ≠ [] then q1.step_id else a1.step_id) a1.round_num,
         DialogueLogParser.TPair.mk t2 u2 a2.timestamp
          (if q2.step_id ≠ [] then q2.step_id else a2.step_id) a2.round_num]) ∧
    (∀ (b1 q a2 : DialogueEntry) (t u1 u2 : List Char),
      b1.ai_text = none → b1.user_text = some u1 → u1 ≠ [] →
      q.ai_text = some t → t ≠ [] → q.user_text = none →
      a2.ai_text = none → a2.user_text = some u2 → u2 ≠ [] →
      DialogueLogParser.extract_dialogue_pairs [b1, q, a2] =
        [DialogueLogParser.TPair.mk t u2 a2.timestamp
          (if q.step_id ≠ [] then q.step_id else a2.step_id) a2.round_num]) ∧
    (∀ es : List DialogueEntry,
      (∀ e ∈ es, truthyS e.ai_text = false) →
      DialogueLogParser.extract_dialogue_pairs es = []) := by
  refine ⟨?_, ?_, ?_⟩
  · intro q1 a1 q2 a2 t1 u1 t2 u2 h1 h2 h3 h4 h5 h6 h7 h8 h9 h10 h11 h12
    simp [DialogueLogParser.extract_dialogue_pairs, DialogueLogParser.extractLoop,
      truthyS, h1, h2, h3, h4, h5, h6, h7, h8, h9, h10, h11, h12]
  · intro b1 q a2 t u1 u2 h1 h2 h3 h4 h5 h6 h7 h8 h9
    simp [DialogueLogParser.extract_dialogue_pairs, DialogueLogParser.extractLoop,
      truthyS, h1, h2, h3, h4, h5, h6, h7, h8, h9]
  · intro es h
    exact extractLoop_no_ai es _ h

/-- C7 witness: the fold characterization applied to concrete
question/answer Records. -/
theorem c7_witness :
    DialogueLogParser.extract_dialogue_pairs [c4Q, c4A, c4Q, c4A] =
      [DialogueLogParser.TPair.mk (str "q") (str "a") (str "t2") (str "s1") (some 2),
       DialogueLogParser.TPair.mk (str "q") (str "a") (str "t2") (str "s1") (some 2)] := by
  have h := c7_pair_extraction_fold.1 c4Q c4A c4Q c4A (str "q") (str "a") (str "q") (str "a")
    rfl (by decide) rfl rfl rfl (by decide) rfl (by decide) rfl rfl rfl (by decide)
  exact h.trans (by decide)

/-- C8: step scoping is a preference, not a hard filter — for both
engines: an absent or empty `step_id` keeps the full pool; a `step_id`
matched by some pair restricts the pool to exactly the matching pairs; a
`step_id` matched by none keeps the full pool; scoping never empties a
non-empty pool; and in particular the pool `{step A, step B}` queried with
`step C` keeps both pairs. -/
theorem c8_step_scoping :
    (∀ pairs : List DialogueLogParser.TPair,
      DialogueMatcher.candidatePool pairs none = pairs ∧
      DialogueMatcher.candidatePool pairs (some []) = pairs) ∧
    (∀ (pairs : List DialogueLogParser.TPair) (s : List Char),
      s ≠ [] → pairs.filter (fun p => p.step_id = s) ≠ [] →
      DialogueMatcher.candidatePool pairs (some s) =
        pairs.filter (fun p => p.step_id = s)) ∧
    (∀ (pairs : List DialogueLogParser.TPair) (s : List Char),
      pairs.filter (fun p => p.step_id = s) = [] →
      DialogueMatcher.candidatePool pairs (some s) = pairs) ∧
    (∀ (pairs : List DialogueLogParser.TPair) (sid : Option (List Char)),
      pairs ≠ [] → DialogueMatcher.candidatePool pairs sid ≠ []) ∧
    (∀ pairs : List JsonDialogueReplayEngine.JPair,
      JsonDialogueReplayEngine.candidatePool pairs none = pairs ∧
      JsonDialogueReplayEngine.candidatePool pairs (some []) = pairs) ∧
    (∀ (pairs : List JsonDialogueReplayEngine.JPair) (s : List Char),
      s ≠ [] → pairs.filter (fun p => p.step_id = some s) ≠ [] →
      JsonDialogueReplayEngine.candidatePool pairs (some s) =
        pairs.filter (fun p => p.step_id = some s)) ∧
    (∀ (pairs : List JsonDialogueReplayEngine.JPair) (s : List Char),
      pairs.filter (fun p => p.step_id = some s) = [] →
      JsonDialogueReplayEngine.candidatePool pairs (some s) = pairs) ∧
    (∀ (pairs : List JsonDialogueReplayEngine.JPair) (sid : Option (List Char)),
      pairs ≠ [] → JsonDialogueReplayEngine.candidatePool pairs sid ≠ []) ∧
    DialogueMatcher.candidatePool [c8pA, c8pB] (some (str "C")) = [c8pA, c8pB] := by
  refine ⟨?_, ?_, ?_, ?_, ?_, ?_, ?_, ?_, by decide⟩
  · intro pairs
    exact ⟨rfl, rfl⟩
  · intro pairs s hs hsc
    simp only [DialogueMatcher.candidatePool]
    rw [if_neg hs, if_neg hsc]
  · intro pairs s hsc
    simp only [DialogueMatcher.candidatePool]
    by_cases hs : s = []
    · rw [if_pos hs]
    · rw [if_neg hs, if_pos hsc]
  · intro pairs sid hne
    cases sid with
    | none => exact hne
    | some s =>
      simp only [DialogueMatcher.candidatePool]
      split_ifs with h1 h2
      · exact hne
      · exact hne
      · exact h2
  · intro pairs
    exact ⟨rfl, rfl⟩
  · intro pairs s hs hsc
    simp only [JsonDialogueReplayEngine.candidatePool]
    rw [if_neg hs, if_neg hsc]
  · intro pairs s hsc
    simp only [JsonDialogueReplayEngine.candidatePool]
    by_cases hs : s = []
    · rw [if_pos hs]
    · rw [if_neg hs, if_pos hsc]
  · intro pairs sid hne
    cases sid with
    | none => exact hne
    | some s =>
      simp only [JsonDialogueReplayEngine.candidatePool]
      split_ifs with h1 h2
      · exact hne
      · exact hne
      · exact h2

/-- C8 witness: the restriction case applied to a singleton pool whose
step matches the query. -/
theorem c8_witness :
    DialogueMatcher.candidatePool [c8pA] (some (str "A")) = [c8pA] := by
  have h := c8_step_scoping.2.1 [c8pA] (str "A") (by decide) (by decide)
  exact h.trans (by decide)

/-- C9 counterexample: the engine loaded from an empty log is in state
`loaded = True`, zero pairs, and `get_match_info` on it returns the error
dictionary `{"error": "日志未加载或为空"}` — it carries neither a
`matched = False` field nor a candidate-pool size of `0`. -/
theorem c9_error_dict_counterexample :
    DialogueReplayEngine.get_match_info c9Engine (str "hi") none =
      Except.error (str "日志未加载或为空") ∧
    c9Engine.loaded = true ∧ c9Engine.dialogue_pairs = some [] := by
  refine ⟨rfl, rfl, rfl⟩

/-- C9 (amended): querying the engine loaded from an empty log never
raises: `get_answer` returns `None`, and `get_match_info` returns the
error dictionary instead of a match result; a caller reading `matched`
from it with a defaulting accessor observes a falsy value. -/
theorem c9_empty_log_query_amended :
    ∀ (q : List Char) (sid : Option (List Char)),
      DialogueReplayEngine.get_answer c9Engine q sid = none ∧
      DialogueReplayEngine.get_match_info c9Engine q sid =
        Except.error (str "日志未加载或为空") ∧
      DialogueReplayEngine.matchedGet
        (DialogueReplayEngine.get_match_info c9Engine q sid) = false := by
  intro q sid
  exact ⟨rfl, rfl, rfl⟩

/-- C10 counterexample: a header line that *begins* with the newer
`step_id: ` marker but also contains the older `Step ` marker at a
positive position: the newer-layout branch is skipped (`find` returned
`0`, not `> 0`), the fallback fires, and the parser returns the non-empty
step id `"B"` — not the empty string the claim promises for every
marker-initial header. -/
theorem c10_header_counterexample :
    startsWithL (str "step_id: ") (str "step_id: A | Step B |") = true ∧
    (DialogueLogParser.parse_header (str "step_id: A | Step B |")).2.1 = str "B" := by
  refine ⟨by decide, by decide⟩

/-- C10 (amended): a step identifier is extracted only when one of the two
markers occurs at a character position strictly greater than zero, and a
header in which *neither* marker occurs at a positive position — in
particular one that merely begins with a marker — yields the empty step
id (the parser is total, so it never raises). -/
theorem c10_step_marker_amended :
    (∀ header : List Char,
      (DialogueLogParser.parse_header header).2.1 ≠ [] →
      0 < pyFind header (str "step_id: ") ∨ 0 < pyFind header (str "Step ")) ∧
    (∀ header : List Char,
      pyFind header (str "step_id: ") ≤ 0 → pyFind header (str "Step ") ≤ 0 →
      (DialogueLogParser.parse_header header).2.1 = []) := by
  have key : ∀ header : List Char,
      ¬ 0 < pyFind header (str "step_id: ") → ¬ 0 < pyFind header (str "Step ") →
      (DialogueLogParser.parse_header header).2.1 = [] := by
    intro header h1 h2
    simp [DialogueLogParser.parse_header, h1, h2]
  constructor
  · intro header hne
    by_contra hc
    push_neg at hc
    exact hne (key header (not_lt.mpr hc.1) (not_lt.mpr hc.2))
  · intro header h1 h2
    exact key header (not_lt.mpr h1) (not_lt.mpr h2)

/-- C10 witness: the amended theorem applied to a header that begins with
the older `Step ` marker. -/
theorem c10_witness :
    (DialogueLogParser.parse_header (str "Step X |")).2.1 = [] := by
  exact c10_step_marker_amended.2 (str "Step X |") (by decide) (by decide)
